import Mathlib

/-!
Verification development for the Streamlit review dashboard (`src/app.py`).

Shallow embedding conventions:
* Python strings are Lean `String`s (finite character sequences, as in Python);
  the string operations used by the program (`str.split(sep, 1)`,
  `Series.str.replace`, slicing `t[:512]`, `" ".join`) are embedded as
  structurally recursive functions over the underlying character lists.
* Real-valued quantities (prices, ratings, confidence scores) are modelled
  over `ℚ`.
* A pandas `DataFrame` is modelled as a `List` of records, and the vectorized
  column operations of the program as list maps / filters.
* The Hugging Face sentiment pipeline is an external black box; it is a
  function parameter `pipeline : List String → List SentResult` of the parts
  of the embedding that invoke it.
-/

namespace App

/-- First-occurrence split of a character list on a nonempty delimiter:
returns `some (l, r)` where the input is `l ++ d ++ r` and `l` is the part
before the first occurrence of `d`, or `none` when `d` does not occur.
This embeds the search done by Python `s.split(d, 1)`. -/
def splitFirstAux (d : List Char) : List Char → Option (List Char × List Char)
  | [] => none
  | c :: cs =>
    if d.isPrefixOf (c :: cs) then some ([], (c :: cs).drop d.length)
    else
      match splitFirstAux d cs with
      | none => none
      | some (l, r) => some (c :: l, r)

/-- Replace every (leftmost, non-overlapping) occurrence of `pat` by `repl`,
as Python `str.replace(pat, repl)` / pandas `Series.str.replace` with a
literal pattern does.  The `skip` counter carries the number of already
matched characters still to be consumed without being emitted. -/
def replaceAllAux (pat repl : List Char) : List Char → Nat → List Char
  | [], _ => []
  | _ :: cs, Nat.succ skip => replaceAllAux pat repl cs skip
  | c :: cs, 0 =>
    if pat.isPrefixOf (c :: cs) then repl ++ replaceAllAux pat repl cs (pat.length - 1)
    else c :: replaceAllAux pat repl cs 0

/-- Python `s.replace(pat, repl)` on `String`s (replaces ALL occurrences). -/
def pyReplace (s pat repl : String) : String :=
  ⟨replaceAllAux pat.data repl.data s.data 0⟩

/-- Python `s.split(d, 1)`: split on the first occurrence of `d` only.
Result `(left, some right)` when `d` occurs, `(s, none)` otherwise. -/
def pySplitOnce (s d : String) : String × Option String :=
  match splitFirstAux d.data s.data with
  | none => (s, none)
  | some (l, r) => (⟨l⟩, some ⟨r⟩)

/-- Python slicing `s[:n]`: the first `n` characters of `s`. -/
def pySlice (s : String) (n : Nat) : String := ⟨s.data.take n⟩

/-- The proposition that `pat` occurs as a contiguous substring of `s`. -/
def containsSub (s pat : String) : Prop := pat.data <:+: s.data

instance (s pat : String) : Decidable (containsSub s pat) :=
  List.decidableInfix pat.data s.data

/-- Numeric value of a run of decimal digit characters. -/
def digitsToNat (cs : List Char) : Nat :=
  cs.foldl (fun a c => 10 * a + (c.toNat - 48)) 0

/-- Syntactic decomposition of a decimal literal: sign, all digits read as
one integer, and the number of fractional digits (`"-19.99"` becomes
`⟨true, 1999, 2⟩`). -/
structure DecParts where
  neg : Bool
  num : Nat
  exp : Nat
deriving DecidableEq, Repr

/-- Unsigned decimal literal recognizer: accepts `digits`, `digits.digits`,
`digits.`, `.digits`; anything else fails.  This is the fragment of Python
`float` (hence of `pd.to_numeric`) exercised by the program's price
strings. -/
def parseUnsignedDecimal (cs : List Char) : Option (Nat × Nat) :=
  let intPart := cs.takeWhile (fun c => c ≠ '.')
  match cs.dropWhile (fun c => c ≠ '.') with
  | [] =>
    if intPart ≠ [] ∧ intPart.all Char.isDigit then
      some (digitsToNat intPart, 0)
    else none
  | _ :: frac =>
    if (intPart ≠ [] ∨ frac ≠ []) ∧ intPart.all Char.isDigit ∧ frac.all Char.isDigit then
      some (digitsToNat (intPart ++ frac), frac.length)
    else none

/-- Sign handling of Python `float(s)` on plain decimal literals. -/
def parseFloatParts (s : String) : Option DecParts :=
  match s.data with
  | '-' :: cs => (parseUnsignedDecimal cs).map (fun p => ⟨true, p.1, p.2⟩)
  | '+' :: cs => (parseUnsignedDecimal cs).map (fun p => ⟨false, p.1, p.2⟩)
  | cs => (parseUnsignedDecimal cs).map (fun p => ⟨false, p.1, p.2⟩)

/-- Rational value denoted by a decomposed decimal literal. -/
def ratOfParts (p : DecParts) : ℚ :=
  (if p.neg then -1 else 1) * (p.num : ℚ) / (10 : ℚ) ^ p.exp

/-- Python `float(s)` on plain (optionally signed) decimal literals,
valued in `ℚ`. -/
def pyFloat (s : String) : Option ℚ :=
  (parseFloatParts s).map ratOfParts

/-- Embeds `pd.to_numeric(x, errors='coerce')` on an optional string cell:
a missing cell (`None` in the expanded split frame) and an unparseable
string both coerce to an absent (`NaN`) value. -/
def to_numeric (s : Option String) : Option ℚ := s.bind pyFloat

/-- The `type` column of a row of `data.csv`. -/
inductive RecordType
  | product
  | testimonial
  | review
deriving DecidableEq, Repr

/-- A structured calendar date, the result of `pd.to_datetime` on a cell of
the `date` column (only year/month are ever extracted by the program). -/
structure PDate where
  year : Nat
  month : Nat
  day : Nat
deriving DecidableEq, Repr

/-- One row of the loaded DataFrame, after date normalization. -/
structure Record where
  type : RecordType
  content : String
  rating : Option ℚ
  date : PDate
deriving DecidableEq, Repr

/-- One raw row of `data.csv`, before `pd.to_datetime` runs on the `date`
column. -/
structure RawRecord where
  type : RecordType
  content : String
  rating : Option ℚ
  date : String
deriving DecidableEq, Repr

/-- Embeds `pd.to_datetime` on one cell for ISO `YYYY-MM-DD` strings: three
all-digit dash-separated fields with a plausible month and day; every other
string fails to parse. -/
def parseDate (s : String) : Option PDate :=
  match splitFirstAux ['-'] s.data with
  | none => none
  | some (y, rest) =>
    match splitFirstAux ['-'] rest with
    | none => none
    | some (m, d) =>
      if y ≠ [] ∧ y.all Char.isDigit ∧ m ≠ [] ∧ m.all Char.isDigit ∧
         d ≠ [] ∧ d.all Char.isDigit ∧
         1 ≤ digitsToNat m ∧ digitsToNat m ≤ 12 ∧
         1 ≤ digitsToNat d ∧ digitsToNat d ≤ 31 then
        some ⟨digitsToNat y, digitsToNat m, digitsToNat d⟩
      else none

/-- Message of the exception `pd.to_datetime` raises on an unparseable date
cell; it is not caught by `load_data`, so it propagates. -/
def dateErrorMsg : String := "time data does not match any recognized format"

/-- Row-wise date normalization of `df["date"] = pd.to_datetime(df["date"])`:
succeeds with the structured rows when every date cell parses, and raises
(errors) as soon as any cell fails. -/
def loadRows : List RawRecord → Except String (List Record)
  | [] => .ok []
  | r :: rs =>
    match parseDate r.date with
    | none => .error dateErrorMsg
    | some d =>
      match loadRows rs with
      | .error e => .error e
      | .ok tl => .ok (⟨r.type, r.content, r.rating, d⟩ :: tl)

/-- `load_data` of `app.py` (lines 16-24): reads `data.csv` — modelled as
`source : Option (List RawRecord)`, `none` when the file is absent
(`FileNotFoundError`) — normalizes the date column, and returns an empty
DataFrame when the file is absent.  A date cell that fails to parse raises
out of the function (the `except` clause only catches `FileNotFoundError`). -/
def load_data (source : Option (List RawRecord)) : Except String (List Record) :=
  match source with
  | none => .ok []
  | some rows => loadRows rows

/-- Outcome of the top of the script (lines 26-31) after loading. -/
inductive StartOutcome
  | halted (msg : String)
  | running (df : List Record)
  | fatal (err : String)
deriving DecidableEq, Repr

/-- Lines 26-31: load, then halt with a user-facing message when the loaded
frame is empty (`st.error` + `st.stop`), otherwise continue with the data.
An uncaught load exception is fatal. -/
def appStart (source : Option (List RawRecord)) : StartOutcome :=
  match load_data source with
  | .error e => .fatal e
  | .ok df =>
    if df.isEmpty then
      .halted "File data.csv not found or empty. Please run scraper_selenium.py first!"
    else .running df

/-- Line 49: `products_df = df[df["type"] == "product"].copy()`. -/
def products_df (df : List Record) : List Record :=
  df.filter (fun r => r.type == RecordType.product)

/-- Per-row effect of line 57,
`products_df["content"].str.split(" - ", n=1, expand=True)`:
the two cells of one row of the expanded frame (cell 1 is `None` when the
row's content has no `" - "`). -/
def splitData1 (content : String) : String × Option String :=
  pySplitOnce content " - "

/-- Line 57 at frame level: the expanded split frame, one `(cell 0, cell 1)`
pair per product row. -/
def split_data (contents : List String) : List (String × Option String) :=
  contents.map splitData1

/-- Per-row value of line 61, `split_data[0].str.replace("Product: ", "")`:
note that `Series.str.replace` replaces every occurrence of the literal
pattern, not only a leading prefix. -/
def productNameOf (content : String) : String :=
  pyReplace (splitData1 content).1 "Product: " ""

/-- Per-row value of line 64,
`pd.to_numeric(split_data[1], errors='coerce')`. -/
def productPriceOf (content : String) : Option ℚ :=
  to_numeric (splitData1 content).2

/-- Message of the exception raised by `split_data[1]` when the expanded
frame has a single column, i.e. when no row's content contains `" - "`
(with `n=1`, `str.split(..., expand=True)` produces `1 + max splits`
columns). -/
def keyErrorMsg : String := "KeyError: 1"

/-- Lines 57-64 at frame level: the `(Product Name, Price)` columns, or the
uncaught `KeyError` when column `1` of the expanded split frame does not
exist because no row's content contains the delimiter. -/
def productsTable (contents : List String) : Except String (List (String × Option ℚ)) :=
  if (split_data contents).any (fun p => p.2.isSome) then
    .ok ((split_data contents).map (fun p => (pyReplace p.1 "Product: " "", to_numeric p.2)))
  else .error keyErrorMsg

/-- Rendering outcome of the Products page (lines 47-79). -/
inductive ProductsViewOut
  | noProducts (warning : String)
  | table (rows : List (String × Option ℚ))
  | failure (err : String)
deriving DecidableEq, Repr

/-- The Products page (lines 47-79): warn when there are no product rows,
otherwise derive and display the parsed table from a copy of the data. -/
def productsView (df : List Record) : ProductsViewOut :=
  let pdf := products_df df
  if pdf.isEmpty then .noProducts "No products found in data.csv."
  else
    match productsTable (pdf.map Record.content) with
    | .ok rows => .table rows
    | .error e => .failure e

/-- Line 83: `testimonials_df = df[df["type"] == "testimonial"]`. -/
def testimonials_df (df : List Record) : List Record :=
  df.filter (fun r => r.type == RecordType.testimonial)

/-- Line 95: `reviews_df = df[df["type"] == "review"].copy()`. -/
def reviews_df (df : List Record) : List Record :=
  df.filter (fun r => r.type == RecordType.review)

/-- Lines 111-112: the fixed month-name list of the slider. -/
def months : List String :=
  ["January", "February", "March", "April", "May", "June",
   "July", "August", "September", "October", "November", "December"]

/-- Line 114: `month_index = months.index(selected_month) + 1`. -/
def month_index (name : String) : Nat := months.indexOf name + 1

/-- Descending insertion used to model `sorted(..., reverse=True)`. -/
def insertDesc (x : Nat) : List Nat → List Nat
  | [] => [x]
  | y :: ys => if y ≤ x then x :: y :: ys else y :: insertDesc x ys

/-- Sort a list of naturals in descending order. -/
def sortDesc : List Nat → List Nat
  | [] => []
  | x :: xs => insertDesc x (sortDesc xs)

/-- Line 105:
`sorted(reviews_df["date"].dt.year.unique(), reverse=True)` —
the distinct years of the review rows, sorted descending. -/
def available_years (rdf : List Record) : List Nat :=
  sortDesc ((rdf.map (fun r => r.date.year)).dedup)

/-- What the Reviews page offers as a year control (lines 95-108). -/
inductive YearControl
  | noReviews (warning : String)
  | yearOptions (options : List Nat)
deriving DecidableEq, Repr

/-- Lines 95-108: when no review rows exist the page stops with a warning;
otherwise the year selectbox is populated from the data, with `[2023]`
substituted when the computed list is empty. -/
def reviewsYearControl (df : List Record) : YearControl :=
  let rdf := reviews_df df
  if rdf.isEmpty then .noReviews "No reviews found."
  else
    let ys := available_years rdf
    .yearOptions (if ys.isEmpty then [2023] else ys)

/-- Lines 117-120: the year/month filter applied to `reviews_df`. -/
def filtered_reviews (rdf : List Record) (year mIdx : Nat) : List Record :=
  rdf.filter (fun r => r.date.year == year && r.date.month == mIdx)

/-- The composite time-window filter of the Reviews page: type filter
(line 95) followed by the year/month filter (lines 117-120). -/
def timeWindowFilter (df : List Record) (year mIdx : Nat) : List Record :=
  filtered_reviews (reviews_df df) year mIdx

/-- Outcome of the emptiness check on the filtered set (lines 124-125). -/
inductive FilterOutcome
  | noneInPeriod (info : String)
  | found (rows : List Record)
deriving DecidableEq, Repr

/-- Lines 124-127: an empty filtered set yields an informational message
(`st.info`), a non-empty one proceeds with the rows. -/
def filterOutcome (df : List Record) (year mIdx : Nat) : FilterOutcome :=
  let fr := timeWindowFilter df year mIdx
  if fr.isEmpty then .noneInPeriod "No reviews found for this time period."
  else .found fr

/-- Line 139: `short_texts = [t[:512] for t in texts]`. -/
def short_texts (texts : List String) : List String :=
  texts.map (fun t => pySlice t 512)

/-- One element of the sentiment pipeline's output batch. -/
structure SentResult where
  label : String
  score : ℚ
deriving DecidableEq, Repr

/-- One row of `filtered_reviews` after lines 144-145 attached the
`sentiment` and `confidence` columns. -/
structure ClassifiedRow where
  base : Record
  sentiment : String
  confidence : ℚ
deriving DecidableEq, Repr

/-- Message of the pandas exception raised by a column assignment whose
value list does not match the frame's row count. -/
def lengthErrorMsg : String := "Length of values does not match length of index"

/-- Lines 137-145: build the texts, truncate them, run the pipeline, and
attach the label and score columns to the filtered rows (a column
assignment with a mismatched length would raise). -/
def runAnalysis (pipeline : List String → List SentResult) (filtered : List Record) :
    Except String (List ClassifiedRow) :=
  let results := pipeline (short_texts (filtered.map Record.content))
  if results.length = filtered.length then
    .ok (List.zipWith (fun r s => ⟨r, s.label, s.score⟩) filtered results)
  else .error lengthErrorMsg

/-- Line 173: `all_text = " ".join(filtered_reviews["content"])`. -/
def all_text (filtered : List Record) : String :=
  String.intercalate " " (filtered.map Record.content)

/-- Outcome of the word-cloud section (lines 169-186). -/
inductive WordCloudOutcome
  | generated (input : String)
  | skipped (warning : String)
deriving DecidableEq, Repr

/-- Lines 173-184: generate the word cloud from `all_text` when it is
non-empty (truthy), otherwise skip generation and show a warning. -/
def wordCloudStep (filtered : List Record) : WordCloudOutcome :=
  let t := all_text filtered
  if t = "" then .skipped "Not enough text for a word cloud." else .generated t

/-- Rendering outcome of the Reviews page (lines 92-202). -/
inductive ReviewsOut
  | noReviews (warning : String)
  | noneInPeriod (info : String)
  | preview (rows : List Record)
  | analyzed (rows : List ClassifiedRow) (wordcloud : WordCloudOutcome)
  | analysisFailed (err : String)
deriving DecidableEq, Repr

/-- The Reviews page (lines 92-202): type filter, time-window filter,
preview, and — on the explicit button press — classification followed by
the chart, word-cloud and details sections. -/
def reviewsView (pipeline : List String → List SentResult) (df : List Record)
    (year : Nat) (monthName : String) (analyze : Bool) : ReviewsOut :=
  let rdf := reviews_df df
  if rdf.isEmpty then .noReviews "No reviews found."
  else
    let fr := filtered_reviews rdf year (month_index monthName)
    if fr.isEmpty then .noneInPeriod "No reviews found for this time period."
    else if analyze then
      match runAnalysis pipeline fr with
      | .ok rows => .analyzed rows (wordCloudStep fr)
      | .error e => .analysisFailed e
    else .preview fr

/-- One user interaction: a navigation choice with its widget state. -/
inductive Nav
  | products
  | testimonials
  | reviews (year : Nat) (monthName : String) (analyze : Bool)
deriving DecidableEq, Repr

/-- What one recomputation pass renders. -/
inductive RenderOut
  | productsOut (o : ProductsViewOut)
  | testimonialsOut (rows : List (String × Option ℚ))
  | reviewsOut (o : ReviewsOut)
deriving DecidableEq, Repr

/-- The process-wide state: the Record Store's cached base collection
(the `df` returned by `load_data`). -/
structure AppState where
  df : List Record
deriving DecidableEq, Repr

/-- One synchronous top-to-bottom recomputation pass (lines 41-202): every
view derives its output from the base collection — the Products and Reviews
views from copies of it — and none of them writes the base collection back,
so the pass returns the state unchanged next to its rendering. -/
def step (pipeline : List String → List SentResult) (s : AppState) :
    Nav → AppState × RenderOut
  | .products => (s, .productsOut (productsView s.df))
  | .testimonials =>
    (s, .testimonialsOut ((testimonials_df s.df).map (fun r => (r.content, r.rating))))
  | .reviews y m a => (s, .reviewsOut (reviewsView pipeline s.df y m a))

/-- A session: a sequence of interactions starting from the loaded state. -/
def runSession (pipeline : List String → List SentResult) (s : AppState)
    (navs : List Nav) : AppState :=
  navs.foldl (fun st n => (step pipeline st n).1) s

/-- Spec-side name extraction (for comparison with the code): strip only a
literal LEADING `"Product: "` prefix from the left split part, leaving the
string unchanged when the prefix is absent. -/
def specLeadingPrefixStrip (s : String) : String :=
  if ("Product: ".data).isPrefixOf s.data then ⟨s.data.drop "Product: ".length⟩ else s

/-! ### Support lemmas about the embedded string and list operations -/

theorem splitFirstAux_append {d : List Char} :
    ∀ {s l r : List Char}, splitFirstAux d s = some (l, r) → s = l ++ d ++ r := by
  intro s
  induction s with
  | nil => intro l r h; simp [splitFirstAux] at h
  | cons c cs ih =>
    intro l r h
    by_cases hp : d.isPrefixOf (c :: cs)
    · rw [splitFirstAux, if_pos hp] at h
      obtain ⟨t, ht⟩ := List.isPrefixOf_iff_prefix.mp hp
      simp only [Option.some.injEq, Prod.mk.injEq] at h
      obtain ⟨hl, hr⟩ := h
      subst hl
      rw [← ht, List.drop_left] at hr
      subst hr
      simpa using ht.symm
    · rw [splitFirstAux, if_neg hp] at h
      split at h
      · exact absurd h (by simp)
      · rename_i l1 r1 heq
        simp only [Option.some.injEq, Prod.mk.injEq] at h
        obtain ⟨hl, hr⟩ := h
        subst hl; subst hr
        simpa using ih heq

theorem splitFirstAux_not_infix_left {d : List Char} (hd : d ≠ []) :
    ∀ {s l r : List Char}, splitFirstAux d s = some (l, r) → ¬ d <:+: l := by
  intro s
  induction s with
  | nil => intro l r h; simp [splitFirstAux] at h
  | cons c cs ih =>
    intro l r h
    by_cases hp : d.isPrefixOf (c :: cs)
    · rw [splitFirstAux, if_pos hp] at h
      simp only [Option.some.injEq, Prod.mk.injEq] at h
      rw [← h.1]
      intro hinf
      exact hd (List.infix_nil.mp hinf)
    · rw [splitFirstAux, if_neg hp] at h
      split at h
      · exact absurd h (by simp)
      · rename_i l1 r1 heq
        simp only [Option.some.injEq, Prod.mk.injEq] at h
        obtain ⟨hl, hr⟩ := h
        subst hl
        intro hinf
        rcases List.infix_cons_iff.mp hinf with hpre | hinf1
        · have hcs : c :: cs = (c :: l1) ++ d ++ r1 := by
            simpa using splitFirstAux_append heq
          have : d <+: c :: cs := by
            rw [hcs, List.append_assoc]
            exact hpre.trans (List.prefix_append _ _)
          exact hp (List.isPrefixOf_iff_prefix.mpr this)
        · exact ih heq hinf1

theorem splitFirstAux_eq_none_of_not_infix {d : List Char} :
    ∀ {s : List Char}, ¬ d <:+: s → splitFirstAux d s = none := by
  intro s
  induction s with
  | nil => intro _; rfl
  | cons c cs ih =>
    intro h
    have hp : ¬ d.isPrefixOf (c :: cs) := fun hp =>
      h (List.isPrefixOf_iff_prefix.mp hp).isInfix
    rw [splitFirstAux, if_neg hp, ih (fun hinf => h (List.infix_cons hinf))]

theorem mem_insertDesc {x y : Nat} :
    ∀ {l : List Nat}, y ∈ insertDesc x l ↔ y = x ∨ y ∈ l := by
  intro l
  induction l with
  | nil => simp [insertDesc]
  | cons z zs ih =>
    rw [insertDesc]
    by_cases h : z ≤ x
    · simp [if_pos h]
    · simp only [if_neg h, List.mem_cons, ih]
      tauto

theorem mem_sortDesc {y : Nat} : ∀ {l : List Nat}, y ∈ sortDesc l ↔ y ∈ l := by
  intro l
  induction l with
  | nil => simp [sortDesc]
  | cons z zs ih => simp [sortDesc, mem_insertDesc, ih]

theorem pairwise_insertDesc {x : Nat} :
    ∀ {l : List Nat}, l.Pairwise (fun a b => b ≤ a) →
      (insertDesc x l).Pairwise (fun a b => b ≤ a) := by
  intro l
  induction l with
  | nil => intro _; simp [insertDesc]
  | cons z zs ih =>
    intro h
    rw [List.pairwise_cons] at h
    rw [insertDesc]
    by_cases hz : z ≤ x
    · rw [if_pos hz, List.pairwise_cons]
      refine ⟨?_, List.pairwise_cons.mpr h⟩
      intro b hb
      rcases List.mem_cons.mp hb with rfl | hb
      · exact hz
      · exact le_trans (h.1 b hb) hz
    · rw [if_neg hz, List.pairwise_cons]
      refine ⟨?_, ih h.2⟩
      intro b hb
      rcases mem_insertDesc.mp hb with rfl | hb
      · exact le_of_lt (Nat.lt_of_not_le hz)
      · exact h.1 b hb

theorem pairwise_sortDesc :
    ∀ {l : List Nat}, (sortDesc l).Pairwise (fun a b => b ≤ a) := by
  intro l
  induction l with
  | nil => simp [sortDesc]
  | cons z zs ih => exact pairwise_insertDesc ih

theorem nodup_insertDesc {x : Nat} :
    ∀ {l : List Nat}, x ∉ l → l.Nodup → (insertDesc x l).Nodup := by
  intro l
  induction l with
  | nil => intro _ _; simp [insertDesc]
  | cons z zs ih =>
    intro hx h
    rw [List.nodup_cons] at h
    rw [insertDesc]
    by_cases hz : z ≤ x
    · rw [if_pos hz, List.nodup_cons]
      exact ⟨hx, List.nodup_cons.mpr h⟩
    · rw [if_neg hz, List.nodup_cons]
      constructor
      · intro hmem
        rcases mem_insertDesc.mp hmem with heq | hmem
        · exact hx (by simp [heq])
        · exact h.1 hmem
      · exact ih (fun hm => hx (List.mem_cons_of_mem _ hm)) h.2

theorem nodup_sortDesc : ∀ {l : List Nat}, l.Nodup → (sortDesc l).Nodup := by
  intro l
  induction l with
  | nil => intro _; simp [sortDesc]
  | cons z zs ih =>
    intro h
    rw [List.nodup_cons] at h
    exact nodup_insertDesc (fun hm => h.1 (mem_sortDesc.mp hm)) (ih h.2)

/-- Per-row split of a content without the delimiter: the row keeps its
whole content in cell 0 and has an absent cell 1. -/
theorem splitData1_eq_of_not_contains {content : String}
    (hnd : ¬ containsSub content " - ") : splitData1 content = (content, none) := by
  rw [splitData1, pySplitOnce, splitFirstAux_eq_none_of_not_infix hnd]

/-- A sample review row used to instantiate the universally quantified
theorems at concrete inputs. -/
def sampleReview : Record := ⟨RecordType.review, "good", none, ⟨2024, 5, 2⟩⟩

/-! ### Claim theorems -/

/-- C1, counterexample: on `"Product: AProduct: B - 19.99"` the code yields
the product name `"AB"` (pandas `str.replace` removes EVERY occurrence of
`"Product: "`), not `"AProduct: B"` as the claim's leading-prefix strip
demands, so the claimed round-trip fails when the name contains the
substring `"Product: "`. -/
theorem C1_counterexample :
    productNameOf "Product: AProduct: B - 19.99" = "AB" ∧
    specLeadingPrefixStrip (splitData1 "Product: AProduct: B - 19.99").1 = "AProduct: B" ∧
    productNameOf "Product: AProduct: B - 19.99" ≠
      specLeadingPrefixStrip (splitData1 "Product: AProduct: B - 19.99").1 :=
  ⟨by decide, by decide, by decide⟩

/-- C1 (amended): for a content whose first `" - "` split succeeds with a
right part parsing as a decimal, the extractor yields the price so parsed,
and the name equal to the left part with EVERY occurrence of `"Product: "`
removed (hence equal to the leading-prefix-stripped name only when the
name itself contains no further `"Product: "`). -/
theorem C1_product_parse_roundtrip (content l r : String) (q : ℚ)
    (hsplit : splitData1 content = (l, some r)) (hprice : pyFloat r = some q) :
    productNameOf content = pyReplace l "Product: " "" ∧
    productPriceOf content = some q := by
  constructor
  · rw [productNameOf, hsplit]
  · rw [productPriceOf, hsplit]
    simpa [to_numeric] using hprice

/-- C1, witness at the counterexample content. -/
theorem C1_product_parse_roundtrip_witness :
    productNameOf "Product: AProduct: B - 19.99" =
      pyReplace "Product: AProduct: B" "Product: " "" ∧
    productPriceOf "Product: AProduct: B - 19.99" =
      some (ratOfParts ⟨false, 1999, 2⟩) :=
  C1_product_parse_roundtrip "Product: AProduct: B - 19.99" "Product: AProduct: B"
    "19.99" (ratOfParts ⟨false, 1999, 2⟩) (by decide)
    (by rw [pyFloat]
        have h : parseFloatParts "19.99" = some ⟨false, 1999, 2⟩ := by decide
        rw [h]; rfl)

/-- C2: the product splitter splits on the first `" - "` only — whenever
the split succeeds, the content is exactly `left ++ " - " ++ right` with no
occurrence of the delimiter in the left part, so later occurrences stay in
the right part; in particular `"Product: A - B - 19.99"` gives name `"A"`
and an absent price because the numeric parse runs on `"B - 19.99"` and
fails. -/
theorem C2_split_at_most_once :
    (∀ content l r : String, splitData1 content = (l, some r) →
      content = l ++ " - " ++ r ∧ ¬ containsSub l " - ") ∧
    splitData1 "Product: A - B - 19.99" = ("Product: A", some "B - 19.99") ∧
    productNameOf "Product: A - B - 19.99" = "A" ∧
    pyFloat "B - 19.99" = none ∧
    productPriceOf "Product: A - B - 19.99" = none := by
  refine ⟨?_, by decide, by decide, by decide, by decide⟩
  intro content l r h
  rw [splitData1, pySplitOnce] at h
  cases heq : splitFirstAux (" - ".data) content.data with
  | none => rw [heq] at h; simp at h
  | some p =>
    obtain ⟨lc, rc⟩ := p
    rw [heq] at h
    simp only [Prod.mk.injEq, Option.some.injEq] at h
    obtain ⟨h1, h2⟩ := h
    subst h1; subst h2
    have happ := splitFirstAux_append heq
    constructor
    · calc content = (⟨content.data⟩ : String) := rfl
        _ = (⟨lc ++ " - ".data ++ rc⟩ : String) := by rw [happ]
        _ = (⟨lc⟩ : String) ++ " - " ++ (⟨rc⟩ : String) := rfl
    · have hd : (" - ".data : List Char) ≠ [] := by decide
      exact splitFirstAux_not_infix_left hd heq

/-- C2, witness: the split equation and delimiter-freeness of the left part
at the claim's concrete content. -/
theorem C2_split_at_most_once_witness :
    ("Product: A - B - 19.99" : String) = "Product: A" ++ " - " ++ "B - 19.99" ∧
    ¬ containsSub "Product: A" " - " :=
  C2_split_at_most_once.1 "Product: A - B - 19.99" "Product: A" "B - 19.99" (by decide)

/-- C3: the time-window filter keeps exactly the records of type `review`
whose date matches the given year and (1-indexed) month index, an empty
match yields the informational outcome rather than an error, and the month
index really is 1-indexed (January is 1, December is 12). -/
theorem C3_time_window_filter (df : List Record) (year mIdx : Nat) :
    (∀ r : Record, r ∈ timeWindowFilter df year mIdx ↔
      r ∈ df ∧ r.type = RecordType.review ∧ r.date.year = year ∧ r.date.month = mIdx) ∧
    (filterOutcome df year mIdx =
        FilterOutcome.noneInPeriod "No reviews found for this time period." ↔
      timeWindowFilter df year mIdx = []) ∧
    month_index "January" = 1 ∧ month_index "December" = 12 := by
  refine ⟨?_, ?_, by decide, by decide⟩
  · intro r
    simp only [timeWindowFilter, filtered_reviews, reviews_df, List.mem_filter,
      Bool.and_eq_true, beq_iff_eq]
    tauto
  · simp only [filterOutcome]
    by_cases h : timeWindowFilter df year mIdx = [] <;> simp [h]

/-- C3, witness: the sample review is kept by the filter that matches its
type, year and month. -/
theorem C3_time_window_filter_witness :
    sampleReview ∈ timeWindowFilter [sampleReview] 2024 5 :=
  ((C3_time_window_filter [sampleReview] 2024 5).1 sampleReview).mpr
    ⟨by simp, rfl, rfl, rfl⟩

/-- C4: truncation before classification — the truncated batch has the same
length as the input batch, every string in it has at most 512 characters,
the element at each index is the 512-character cut of the input at that
index, and inputs of length at most 512 pass through unchanged. -/
theorem C4_truncation (texts : List String) :
    (short_texts texts).length = texts.length ∧
    (∀ s : String, s ∈ short_texts texts → s.length ≤ 512) ∧
    (∀ i : Nat, (short_texts texts).get? i = (texts.get? i).map (fun t => pySlice t 512)) ∧
    (∀ t : String, t.length ≤ 512 → pySlice t 512 = t) := by
    refine ⟨by simp [short_texts], ?_, ?_, ?_⟩
    · intro s hs
      rw [short_texts] at hs
      obtain ⟨t, -, rfl⟩ := List.mem_map.mp hs
      show (t.data.take 512).length ≤ 512
      rw [List.length_take]
      exact min_le_left _ _
    · intro i
      rw [short_texts, List.get?_map]
    · intro t ht
      show (⟨t.data.take 512⟩ : String) = t
      rw [List.take_of_length_le ht]

/-- C4, witness: a short string passes through truncation unchanged and the
truncated batch is elementwise the cut of the input batch. -/
theorem C4_truncation_witness :
    pySlice "hi" 512 = "hi" ∧
    (short_texts ["hi"]).get? 0 = ((["hi"] : List String).get? 0).map (fun t => pySlice t 512) :=
  ⟨(C4_truncation ["hi"]).2.2.2 "hi" (by decide), (C4_truncation ["hi"]).2.2.1 0⟩

/-- C5: when the underlying model maps each text independently (is length-
and order-preserving), the analysis succeeds and annotates the i-th
filtered review with the label and score the model gives the i-th
(truncated) content — the output row list is exactly the input row list
mapped elementwise. -/
theorem C5_classifier_order (pipeline : List String → List SentResult)
    (f : String → SentResult) (hp : ∀ ts, pipeline ts = ts.map f)
    (filtered : List Record) :
    runAnalysis pipeline filtered =
      Except.ok (filtered.map (fun r =>
        ⟨r, (f (pySlice r.content 512)).label, (f (pySlice r.content 512)).score⟩)) := by
  simp only [runAnalysis, hp]
  have hst : short_texts (filtered.map Record.content)
      = filtered.map (fun r => pySlice r.content 512) := by
    rw [short_texts, List.map_map]; rfl
  rw [hst, if_pos (by simp), List.zipWith_map_right, List.zipWith_map_right,
    List.zipWith_same]

/-- C5, witness: a pipeline echoing its (truncated) input as the label
yields a single annotated row for a single review. -/
theorem C5_classifier_order_witness :
    runAnalysis (fun ts => ts.map (fun t => ⟨t, 1⟩)) [sampleReview]
      = Except.ok [⟨sampleReview, "good", 1⟩] := by
  have h := C5_classifier_order (fun ts => ts.map (fun t => ⟨t, 1⟩))
    (fun t => ⟨t, 1⟩) (fun ts => rfl) [sampleReview]
  rw [h]
  have h2 : pySlice "good" 512 = "good" := by decide
  simp [h2, sampleReview]

/-- C6: the word-cloud input is the space-join of the filtered contents,
and generation is skipped with the informational warning exactly when that
joined string is empty, the generator being invoked on it otherwise. -/
theorem C6_wordcloud_empty_skip (filtered : List Record) :
    all_text filtered = String.intercalate " " (filtered.map Record.content) ∧
    (wordCloudStep filtered = WordCloudOutcome.skipped "Not enough text for a word cloud." ↔
      all_text filtered = "") ∧
    (wordCloudStep filtered = WordCloudOutcome.generated (all_text filtered) ↔
      all_text filtered ≠ "") := by
  refine ⟨rfl, ?_, ?_⟩ <;> simp only [wordCloudStep] <;>
    by_cases h : all_text filtered = "" <;> simp [h]

/-- C7, counterexample: a present source with zero rows also loads as an
empty collection, so "empty exactly when the source is absent" fails in the
only-if direction. -/
theorem C7_counterexample :
    load_data (some []) = Except.ok [] ∧ some ([] : List RawRecord) ≠ none :=
  ⟨rfl, by simp⟩

/-- C7 (amended): an absent source loads as an empty collection rather than
raising, any load that returns an empty collection makes the caller halt
with the user-facing message, and a source containing an unparseable date
value makes the load fail with the fatal date error (no row-level
recovery). -/
theorem C7_load_error_handling :
    load_data none = Except.ok [] ∧
    (∀ source, load_data source = Except.ok [] →
      appStart source = StartOutcome.halted
        "File data.csv not found or empty. Please run scraper_selenium.py first!") ∧
    (∀ rows : List RawRecord, (∃ r ∈ rows, parseDate r.date = none) →
      load_data (some rows) = Except.error dateErrorMsg) := by
  refine ⟨rfl, ?_, ?_⟩
  · intro source h
    rw [appStart, h]
    rfl
  · intro rows hex
    rw [load_data]
    induction rows with
    | nil => simp at hex
    | cons r rs ih =>
      rw [loadRows]
      obtain ⟨r0, hmem, hparse⟩ := hex
      rcases List.mem_cons.mp hmem with rfl | hmem0
      · rw [hparse]
      · cases hp : parseDate r.date with
        | none => rfl
        | some d => rw [ih ⟨r0, hmem0, hparse⟩]

/-- C7, witness: the empty load halts the app, and a single bad date cell
is a fatal load error. -/
theorem C7_load_error_handling_witness :
    appStart (some []) = StartOutcome.halted
      "File data.csv not found or empty. Please run scraper_selenium.py first!" ∧
    load_data (some [⟨RecordType.review, "x", none, "notadate"⟩]) =
      Except.error dateErrorMsg :=
  ⟨C7_load_error_handling.2.1 (some []) rfl,
   C7_load_error_handling.2.2 [⟨RecordType.review, "x", none, "notadate"⟩]
     ⟨⟨RecordType.review, "x", none, "notadate"⟩, by simp, by decide⟩⟩

/-- C8, counterexample: with no review-typed records the Reviews page stops
at a warning and offers no year control at all — in particular not the
fallback list `[2023]` the claim promises. -/
theorem C8_counterexample :
    reviewsYearControl [] = YearControl.noReviews "No reviews found." ∧
    reviewsYearControl [] ≠ YearControl.yearOptions [2023] :=
  ⟨by decide, by decide⟩

/-- C8 (amended): the year options are exactly the distinct years occurring
among review-typed records, strictly descending; when no review-typed
records exist the view shows the "No reviews found." warning and offers no
year control; and when review records exist the dynamically derived list is
offered and is non-empty, so the hardcoded fallback year is dead code. -/
theorem C8_year_options (df : List Record) :
    (∀ y : Nat, y ∈ available_years (reviews_df df) ↔
      ∃ r ∈ df, r.type = RecordType.review ∧ r.date.year = y) ∧
    (available_years (reviews_df df)).Pairwise (fun a b => b < a) ∧
    (reviews_df df = [] → reviewsYearControl df = YearControl.noReviews "No reviews found.") ∧
    (reviews_df df ≠ [] →
      reviewsYearControl df = YearControl.yearOptions (available_years (reviews_df df)) ∧
      available_years (reviews_df df) ≠ []) := by
  have hmem : ∀ y : Nat, y ∈ available_years (reviews_df df) ↔
      ∃ r ∈ df, r.type = RecordType.review ∧ r.date.year = y := by
    intro y
    rw [available_years, mem_sortDesc, List.mem_dedup]
    simp only [List.mem_map, reviews_df, List.mem_filter, beq_iff_eq]
    constructor
    · rintro ⟨r, ⟨hr, ht⟩, hy⟩
      exact ⟨r, hr, ht, hy⟩
    · rintro ⟨r, hr, ht, hy⟩
      exact ⟨r, ⟨hr, ht⟩, hy⟩
  refine ⟨hmem, ?_, ?_, ?_⟩
  · have hp := pairwise_sortDesc (l := ((reviews_df df).map (fun r => r.date.year)).dedup)
    have hn : (available_years (reviews_df df)).Nodup :=
      nodup_sortDesc (List.nodup_dedup _)
    exact (hp.and hn).imp (fun hab => lt_of_le_of_ne hab.1 (fun h => hab.2 h.symm))
  · intro h
    rw [reviewsYearControl]
    simp [h]
  · intro h
    obtain ⟨r, hr⟩ := List.exists_mem_of_ne_nil _ h
    have hy : r.date.year ∈ available_years (reviews_df df) := by
      rw [available_years, mem_sortDesc, List.mem_dedup]
      exact List.mem_map.mpr ⟨r, hr, rfl⟩
    have hne : available_years (reviews_df df) ≠ [] := List.ne_nil_of_mem hy
    refine ⟨?_, hne⟩
    rw [reviewsYearControl]
    simp [List.isEmpty_iff, h, hne]

/-- C8, witness: with a single review of 2024, the year control offers the
dynamically derived list and 2024 appears in it. -/
theorem C8_year_options_witness :
    2024 ∈ available_years (reviews_df [sampleReview]) ∧
    reviewsYearControl [sampleReview] =
      YearControl.yearOptions (available_years (reviews_df [sampleReview])) :=
  ⟨((C8_year_options [sampleReview]).1 2024).mpr ⟨sampleReview, by simp, rfl, rfl⟩,
   ((C8_year_options [sampleReview]).2.2.2 (by decide)).1⟩

/-- C9, counterexample: a product batch in which NO content contains
`" - "` makes the expanded split frame single-column, so the price-column
access fails and the Products view errors — contradicting the claim that an
absent delimiter is not an error condition. -/
theorem C9_counterexample :
    ¬ containsSub "Unparsed row" " - " ∧
    productsTable ["Unparsed row"] = Except.error keyErrorMsg ∧
    productsView [⟨RecordType.product, "Unparsed row", none, ⟨2024, 1, 1⟩⟩] =
      ProductsViewOut.failure keyErrorMsg :=
  ⟨by decide, rfl, rfl⟩

/-- C9 (amended): a no-delimiter content splits to itself with an absent
right cell, and per row yields name = content with every `"Product: "`
occurrence removed and an absent price — this per-row outcome is realized
in the rendered table whenever at least one row of the batch does contain
the delimiter; when no row contains it, the whole Products table fails with
the column-lookup error instead. -/
theorem C9_no_delimiter (content : String) (hnd : ¬ containsSub content " - ") :
    splitData1 content = (content, none) ∧
    productNameOf content = pyReplace content "Product: " "" ∧
    productPriceOf content = none ∧
    (∀ contents : List String, (∀ c ∈ contents, ¬ containsSub c " - ") →
      productsTable contents = Except.error keyErrorMsg) ∧
    (∀ contents rows, productsTable contents = Except.ok rows →
      ∀ i : Nat, contents.get? i = some content →
        rows.get? i = some (pyReplace content "Product: " "", none)) := by
  have hsplit := splitData1_eq_of_not_contains hnd
  refine ⟨hsplit, ?_, ?_, ?_, ?_⟩
  · rw [productNameOf, hsplit]
  · rw [productPriceOf, hsplit]
    rfl
  · intro contents hall
    rw [productsTable, if_neg]
    simp only [Bool.not_eq_true, List.any_eq_false, split_data, List.mem_map]
    rintro p ⟨c, hc, rfl⟩
    rw [splitData1_eq_of_not_contains (hall c hc)]
    rfl
  · intro contents rows hok i hi
    rw [productsTable] at hok
    split at hok
    · simp only [Except.ok.injEq] at hok
      subst hok
      rw [split_data, List.map_map, List.get?_map, hi]
      simp only [Option.map_some', Function.comp_apply, hsplit]
      rfl
    · exact absurd hok (by simp)

/-- C9, witness: the per-row values and the whole-batch error at the
counterexample content. -/
theorem C9_no_delimiter_witness :
    splitData1 "Unparsed row" = ("Unparsed row", none) ∧
    productNameOf "Unparsed row" = pyReplace "Unparsed row" "Product: " "" ∧
    productPriceOf "Unparsed row" = none ∧
    productsTable ["Unparsed row"] = Except.error keyErrorMsg :=
  ⟨(C9_no_delimiter "Unparsed row" (by decide)).1,
   (C9_no_delimiter "Unparsed row" (by decide)).2.1,
   (C9_no_delimiter "Unparsed row" (by decide)).2.2.1,
   (C9_no_delimiter "Unparsed row" (by decide)).2.2.2.1 ["Unparsed row"] (by decide)⟩

/-- C10: no interaction mutates the Record Store's base collection — every
single pass returns the state unchanged (all derived tables are built on
copies), so after any sequence of navigation, filter and analysis actions
the session state still holds exactly the collection `load_data`
produced. -/
theorem C10_base_collection_immutable (pipeline : List String → List SentResult)
    (s : AppState) (navs : List Nav) :
    runSession pipeline s navs = s ∧ (∀ nav, (step pipeline s nav).1 = s) := by
  have hstep : ∀ (st : AppState) (nav : Nav), (step pipeline st nav).1 = st := by
    intro st nav
    cases nav <;> rfl
  refine ⟨?_, hstep s⟩
  induction navs generalizing s with
  | nil => rfl
  | cons n ns ih =>
    show List.foldl _ _ _ = _
    rw [List.foldl_cons, hstep s n]
    exact ih s

end App
